import Mathlib

/-!
Shallow embedding of the multi-tenant bot supervisor implemented in
src/index.js: the tenant store on disk (one directory per admin UID holding
appstate.json, admin.txt and logs.txt), the admission quota over active
users, the process supervisor (the mutable processes map keyed by UID),
and the log capture pipeline (stdout and stderr handlers, the exit handler,
socket.io broadcast).  File-system state, the running map and the broadcast
history are explicit fields of a server state; HTTP handlers are pure state
transformers returning a status and a body.  Asynchronous child events
(stdout data, stderr data, process exit) are modelled as an event trace
consumed by a step function; trace validity reflects what Node can deliver
(output and exit only for forked children, and at most one exit per child).
-/

namespace Srv

/-- Constant MAX_USERS from src/index.js (line 11). -/
def MAX_USERS : Nat := 20

/-- Body sent on a missing admin or appstate field (line 45). -/
def missingMsg : String := "❌ Admin UID or AppState missing."

/-- Body sent on the 403 quota rejection (line 56). -/
def quotaMsg : String := "❌ Limit reached: Only 20 users allowed."

/-- Body sent from the catch block of the start handler (line 104). -/
def invalidMsg : String := "❌ Invalid AppState JSON or internal error."

/-- Success body of the start handler (line 101). -/
def startedMsg (admin : String) : String :=
  "✅ Bot started successfully for UID: " ++ admin

/-- Body sent on a missing uid query parameter (stop and logs routes). -/
def uidMissingMsg : String := "❌ UID missing."

/-- Body of the no-op acknowledgment when no process is registered (line 112). -/
def notRunningMsg : String := "⚠️ Bot not running."

/-- Success body of the stop handler (line 117). -/
def stoppedMsg (uid : String) : String := "🔴 Bot stopped for UID: " ++ uid

/-- Body sent from the catch block of the stop handler (line 119). -/
def stopFailMsg : String := "❌ Failed to stop bot."

/-- Sentinel body when the log file does not exist (line 130). -/
def noLogsMsg : String := "(No logs yet)"

/-- Session-started marker written when logs.txt is reset (line 67). -/
def logMarker (t : String) : String := "📂 Logs started at " ++ t

/-- Rendering of the exit code in the terminal marker: when a child dies by
signal, Node reports code null, which string-interpolates to "null". -/
def renderCode : Option Int → String
  | none => "null"
  | some c => toString c

/-- Terminal marker appended by the exit handler (line 93). -/
def exitMsg (code : Option Int) (t : String) : String :=
  "🔴 Bot exited with code " ++ renderCode code ++ " at " ++ t

/-- Association-list update, the JS assignment obj[k] = v. -/
def setK {κ α : Type} [DecidableEq κ] (k : κ) (v : α) (l : List (κ × α)) :
    List (κ × α) :=
  (k, v) :: l.filter (fun p => p.1 ≠ k)

/-- Association-list removal, the JS statement delete obj[k]. -/
def eraseK {κ α : Type} [DecidableEq κ] (k : κ) (l : List (κ × α)) :
    List (κ × α) :=
  l.filter (fun p => p.1 ≠ k)

/-- File-system state under USERS_DIR: the directory entries, and for each
UID the content of appstate.json, admin.txt and the lines of logs.txt. -/
structure FS where
  dirs : List String
  appstate : List (String × String)
  adminTxt : List (String × String)
  logs : List (String × List String)
deriving DecidableEq

/-- The request body field appstate: either an already-structured JSON value
(carried as its JSON.stringify serialization) or a textual encoding that
JSON.parse must decode (line 61). -/
inductive Blob where
  | obj (v : String)
  | str (s : String)
deriving DecidableEq

/-- External environment: the outcome of JSON.parse followed by
JSON.stringify on a textual appstate, none when JSON.parse throws. -/
structure Env where
  jsonParse : String → Option String

/-- Supervisor actions recorded in source order by the start and stop
handlers: the kill of a previous child (lines 70 to 72, 115) and the fork of
a new child (line 75). -/
inductive Action where
  | killed (pid : Nat)
  | forked (pid : Nat)
deriving DecidableEq

/-- Whole server state: file system, the processes map (UID to child pid),
the admin UID captured by each forked child's stream and exit handlers
(closure over admin at lines 78 to 97), the fork counter, the socket.io
broadcast history as (room, text) pairs, the journal of kill and fork
actions in call order, and the pids whose exit event has already fired
(Node fires exit at most once per child). -/
structure SState where
  fs : FS
  processes : List (String × Nat)
  owners : List (Nat × String)
  nextPid : Nat
  emitted : List (String × String)
  journal : List Action
  exitedPids : List Nat
deriving DecidableEq

/-- An HTTP response: status code and body. -/
structure Resp where
  status : Nat
  body : String
deriving DecidableEq

/-- The scan at lines 50 to 52: directory entries under USERS_DIR whose
appstate.json exists. -/
def activeUsers (fs : FS) : List String :=
  fs.dirs.filter (fun uid => (fs.appstate.lookup uid).isSome)

/-- Line 61: a string appstate goes through JSON.parse (which may throw),
any other value is used as is; the result is serialized by JSON.stringify. -/
def decodeBlob (env : Env) : Blob → Option String
  | .obj v => some v
  | .str s => env.jsonParse s

/-- Line 59: mkdirSync of the user directory when absent. -/
def mkdirIf (fs : FS) (a : String) : FS :=
  if a ∈ fs.dirs then fs else { fs with dirs := fs.dirs ++ [a] }

/-- Function appendLog (lines 34 to 41): appendFileSync creates logs.txt if
missing; if the user directory itself is absent the throw is caught and only
logged, leaving the file system unchanged. -/
def appendLogFS (fs : FS) (a : String) (text : String) : FS :=
  if a ∈ fs.dirs then
    { fs with logs := setK a (((fs.logs.lookup a).getD []) ++ [text]) fs.logs }
  else fs

/-- The POST /start-bot handler (lines 43 to 106), in source order: missing
field check, active-user scan, quota check, mkdir, JSON decode, credential
and owner writes, log reset, best-effort kill of a previous child, fork, and
registration of the new child. -/
def startBot (env : Env) (st : SState) (admin : Option String)
    (blob : Option Blob) (t : String) : SState × Resp :=
  match admin, blob with
  | some a, some b =>
    if a = "" ∨ b = Blob.str "" then (st, ⟨400, missingMsg⟩)
    else
      let current := activeUsers st.fs
      if a ∉ current ∧ MAX_USERS ≤ current.length then
        (st, ⟨403, quotaMsg⟩)
      else
        let fs1 := mkdirIf st.fs a
        match decodeBlob env b with
        | none => ({ st with fs := fs1 }, ⟨500, invalidMsg⟩)
        | some content =>
          let fs2 := { fs1 with
            appstate := setK a content fs1.appstate,
            adminTxt := setK a a fs1.adminTxt,
            logs := setK a [logMarker t] fs1.logs }
          let j1 := match st.processes.lookup a with
            | some p => st.journal ++ [Action.killed p]
            | none => st.journal
          let pid := st.nextPid
          ({ fs := fs2,
             processes := setK a pid st.processes,
             owners := setK pid a st.owners,
             nextPid := pid + 1,
             emitted := st.emitted,
             journal := j1 ++ [Action.forked pid],
             exitedPids := st.exitedPids }, ⟨200, startedMsg a⟩)
  | _, _ => (st, ⟨400, missingMsg⟩)

/-- Outcome of a call to ChildProcess.kill: the signal was delivered, or the
call returned false without raising (process already gone), or the call
raised an exception (caught by the handlers' try blocks). -/
inductive KillOutcome where
  | delivered
  | notDelivered
  | raised
deriving DecidableEq

/-- The GET /stop-bot handler (lines 108 to 121): missing uid check, no-op
acknowledgment when no process is registered, otherwise kill then delete then
the success body, with the catch block returning a 500 when kill raises
(before the delete runs). -/
def stopBot (st : SState) (uid : Option String) (k : KillOutcome) :
    SState × Resp :=
  match uid with
  | some u =>
    if u = "" then (st, ⟨400, uidMissingMsg⟩)
    else
      match st.processes.lookup u with
      | none => (st, ⟨200, notRunningMsg⟩)
      | some p =>
        match k with
        | .raised =>
          ({ st with journal := st.journal ++ [Action.killed p] },
           ⟨500, stopFailMsg⟩)
        | _ =>
          ({ st with processes := eraseK u st.processes,
                     journal := st.journal ++ [Action.killed p] },
           ⟨200, stoppedMsg u⟩)
  | none => (st, ⟨400, uidMissingMsg⟩)

/-- Concatenation of the log lines as stored in logs.txt, each line followed
by the newline appendLog adds. -/
def renderLog (ls : List String) : String :=
  String.join (ls.map (fun l => l ++ "\n"))

/-- The GET /logs handler (lines 123 to 132): missing uid check, sentinel
when logs.txt does not exist, otherwise the full file content. -/
def fetchLog (st : SState) (uid : Option String) : Resp :=
  match uid with
  | some u =>
    if u = "" then ⟨400, uidMissingMsg⟩
    else
      match st.fs.logs.lookup u with
      | none => ⟨200, noLogsMsg⟩
      | some ls => ⟨200, renderLog ls⟩
  | none => ⟨400, uidMissingMsg⟩

/-- A stdout or stderr data handler body (lines 78 to 89): append the chunk
to the durable log and broadcast it to the tenant's room. -/
def onData (st : SState) (a : String) (text : String) : SState :=
  { st with fs := appendLogFS st.fs a text,
            emitted := st.emitted ++ [(a, text)] }

/-- The exit handler body (lines 92 to 97): append the terminal marker,
broadcast it, and delete the processes entry for the captured admin UID
unconditionally. -/
def onExit (st : SState) (a : String) (code : Option Int) (t : String) :
    SState :=
  { st with fs := appendLogFS st.fs a (exitMsg code t),
            emitted := st.emitted ++ [(a, exitMsg code t)],
            processes := eraseK a st.processes }

/-- The JS String.prototype.trim applied to each data chunk at lines 79 and
85: strip whitespace from both ends. -/
def trimStr (s : String) : String :=
  ⟨((s.data.dropWhile Char.isWhitespace).reverse.dropWhile
      Char.isWhitespace).reverse⟩

/-- External events driving the server: HTTP requests and child events. -/
inductive Event where
  | start (admin : Option String) (blob : Option Blob) (t : String)
  | stop (uid : Option String) (k : KillOutcome)
  | out (pid : Nat) (text : String)
  | err (pid : Nat) (text : String)
  | exited (pid : Nat) (code : Option Int) (t : String)
deriving DecidableEq

/-- One event handled by the server.  Child events dispatch through the
handler closures installed at fork time (the owners map); data chunks are
trimmed as at lines 79 and 85, stderr chunks get the error prefix of
line 86, and a fired exit event is recorded in exitedPids. -/
def step (env : Env) (st : SState) : Event → SState
  | .start a b t => (startBot env st a b t).1
  | .stop u k => (stopBot st u k).1
  | .out p text =>
    match st.owners.lookup p with
    | some a => onData st a (trimStr text)
    | none => st
  | .err p text =>
    match st.owners.lookup p with
    | some a => onData st a ("[ERR] " ++ trimStr text)
    | none => st
  | .exited p c t =>
    match st.owners.lookup p with
    | some a => { onExit st a c t with exitedPids := st.exitedPids ++ [p] }
    | none => st

/-- Handle a list of events in order. -/
def run (env : Env) (st : SState) : List Event → SState
  | [] => st
  | e :: es => run env (step env st e) es

/-- Which events the Node runtime can deliver in a given state: output and
exit events only for a forked child whose exit event has not fired yet (a
kill only requests termination; the child's streams keep delivering until
the exit event, and exit fires at most once). -/
def okEvent (st : SState) : Event → Bool
  | .out p _ => (st.owners.lookup p).isSome && !(decide (p ∈ st.exitedPids))
  | .err p _ => (st.owners.lookup p).isSome && !(decide (p ∈ st.exitedPids))
  | .exited p _ _ =>
    (st.owners.lookup p).isSome && !(decide (p ∈ st.exitedPids))
  | _ => true

/-- A trace of events the runtime can deliver from a given state. -/
def validFrom (env : Env) (st : SState) : List Event → Bool
  | [] => true
  | e :: es => okEvent st e && validFrom env (step env st e) es

/-- Number of exit events for a given pid in a trace. -/
def countExited (p : Nat) (es : List Event) : Nat :=
  (es.filter (fun e =>
    match e with
    | .exited q _ _ => decide (q = p)
    | _ => false)).length

/-- Current lines of a tenant's logs.txt, empty when the file is absent. -/
def getLog (st : SState) (a : String) : List String :=
  (st.fs.logs.lookup a).getD []

/-- Fresh server state: empty users directory, no processes. -/
def init : SState := ⟨⟨[], [], [], []⟩, [], [], 0, [], [], []⟩

/-- Concrete environment: JSON.parse fails exactly on the text "bad". -/
def env0 : Env := ⟨fun s => if s = "bad" then none else some s⟩

/-- Concrete trace: start tenant 7, one chunk from the first worker, restart
(which requests the kill of worker 0 and forks worker 1), then chunks from
both workers interleaved before worker 0 has exited. -/
def trC8 : List Event := [
  .start (some "7") (some (.obj "c")) "T1",
  .out 0 "old1",
  .start (some "7") (some (.obj "c")) "T2",
  .out 1 "new1",
  .out 0 "old2",
  .out 1 "new2" ]

/-- Concrete state after starting tenant 7 twice: worker 0 was replaced by
worker 1, worker 1 is registered, worker 0 has not exited yet. -/
def stTwo : SState :=
  run env0 init [.start (some "7") (some (.obj "c")) "T1",
                 .start (some "7") (some (.obj "c")) "T2"]

/-- Twenty distinct user identifiers. -/
def users20 : List String := (List.range MAX_USERS).map (fun i => toString i)

/-- Concrete state with twenty active users and no running worker. -/
def stC1 : SState :=
  ⟨⟨users20, users20.map (fun u => (u, "c")), [], []⟩, [], [], 0, [], [], []⟩

/-- Concrete state with one active tenant whose worker 0 is registered. -/
def stOne : SState :=
  ⟨⟨["1"], [("1", "c")], [("1", "1")], [("1", [logMarker "T0"])]⟩,
   [("1", 0)], [(0, "1")], 1, [], [], []⟩

theorem lookup_pair {κ α : Type} [DecidableEq κ] (k : κ) (p : κ × α)
    (tl : List (κ × α)) :
    List.lookup k (p :: tl) = if k = p.1 then some p.2 else List.lookup k tl := by
  by_cases h : k = p.1
  · simp [List.lookup, h]
  · have hb : (k == p.1) = false := beq_eq_false_iff_ne.mpr h
    simp [List.lookup, hb, h]

theorem filter_ne_cons {κ α : Type} [DecidableEq κ] (k : κ) (p : κ × α)
    (tl : List (κ × α)) :
    (p :: tl).filter (fun q => q.1 ≠ k)
      = if p.1 = k then tl.filter (fun q => q.1 ≠ k)
        else p :: tl.filter (fun q => q.1 ≠ k) := by
  by_cases h : p.1 = k
  · simp [List.filter_cons, h]
  · simp [List.filter_cons, h]

theorem lookup_eraseK_self {κ α : Type} [DecidableEq κ] (k : κ)
    (l : List (κ × α)) : (eraseK k l).lookup k = none := by
  induction l with
  | nil => rfl
  | cons p tl ih =>
    rw [eraseK, filter_ne_cons]
    by_cases h : p.1 = k
    · rw [if_pos h]
      exact ih
    · rw [if_neg h, lookup_pair, if_neg (fun e => h e.symm)]
      exact ih

theorem lookup_eraseK_ne {κ α : Type} [DecidableEq κ] (k k' : κ)
    (l : List (κ × α)) (h : k' ≠ k) :
    (eraseK k l).lookup k' = l.lookup k' := by
  induction l with
  | nil => rfl
  | cons p tl ih =>
    rw [eraseK, filter_ne_cons]
    by_cases hp : p.1 = k
    · have hk : k' ≠ p.1 := fun e => h (e.trans hp)
      rw [if_pos hp, lookup_pair, if_neg hk]
      exact ih
    · rw [if_neg hp, lookup_pair, lookup_pair]
      by_cases hk : k' = p.1
      · rw [if_pos hk, if_pos hk]
      · rw [if_neg hk, if_neg hk]
        exact ih

theorem lookup_setK_self {κ α : Type} [DecidableEq κ] (k : κ) (v : α)
    (l : List (κ × α)) : (setK k v l).lookup k = some v := by
  rw [setK, lookup_pair, if_pos rfl]

theorem lookup_setK_ne {κ α : Type} [DecidableEq κ] (k k' : κ) (v : α)
    (l : List (κ × α)) (h : k' ≠ k) :
    (setK k v l).lookup k' = l.lookup k' := by
  rw [setK, lookup_pair, if_neg h]
  exact lookup_eraseK_ne k k' l h

theorem mem_activeUsers (fs : FS) (a : String) :
    a ∈ activeUsers fs ↔ a ∈ fs.dirs ∧ (fs.appstate.lookup a).isSome = true := by
  simp [activeUsers, List.mem_filter]

theorem startBot_exitedPids (env : Env) (st : SState) (a : Option String)
    (b : Option Blob) (t : String) :
    (startBot env st a b t).1.exitedPids = st.exitedPids := by
  unfold startBot
  cases a with
  | none => rfl
  | some a =>
    cases b with
    | none => rfl
    | some b =>
      dsimp only
      split
      · rfl
      · split
        · rfl
        · split
          · rfl
          · rfl

theorem stopBot_exitedPids (st : SState) (u : Option String)
    (k : KillOutcome) : (stopBot st u k).1.exitedPids = st.exitedPids := by
  unfold stopBot
  cases u with
  | none => rfl
  | some u =>
    dsimp only
    split
    · rfl
    · split
      · rfl
      · split
        · rfl
        · rfl

theorem step_mono_exitedPids (env : Env) (st : SState) (e : Event) (p : Nat)
    (hp : p ∈ st.exitedPids) : p ∈ (step env st e).exitedPids := by
  cases e with
  | start a b t =>
    show p ∈ (startBot env st a b t).1.exitedPids
    rw [startBot_exitedPids]; exact hp
  | stop u k =>
    show p ∈ (stopBot st u k).1.exitedPids
    rw [stopBot_exitedPids]; exact hp
  | out q text =>
    simp only [step]
    cases h : st.owners.lookup q with
    | none => exact hp
    | some a2 => simpa [onData] using hp
  | err q text =>
    simp only [step]
    cases h : st.owners.lookup q with
    | none => exact hp
    | some a2 => simpa [onData] using hp
  | exited q c t =>
    simp only [step]
    cases h : st.owners.lookup q with
    | none => exact hp
    | some a2 => simp [onExit, List.mem_append, hp]

theorem countExited_cons_exited (p q : Nat) (c : Option Int) (t : String)
    (tl : List Event) :
    countExited p (Event.exited q c t :: tl)
      = (if q = p then 1 else 0) + countExited p tl := by
  by_cases h : q = p
  · simp [countExited, List.filter_cons, h, Nat.add_comm]
  · simp [countExited, List.filter_cons, h]

theorem validFrom_atMostOne (env : Env) (p : Nat) :
    ∀ (es : List Event) (st : SState), validFrom env st es = true →
      (p ∈ st.exitedPids → countExited p es = 0) ∧ countExited p es ≤ 1 := by
  intro es
  induction es with
  | nil =>
    intro st _
    exact ⟨fun _ => rfl, Nat.zero_le 1⟩
  | cons e tl ih =>
    intro st h
    rw [validFrom, Bool.and_eq_true] at h
    obtain ⟨h1, h2⟩ := h
    have IH := ih (step env st e) h2
    cases e with
    | start a b t =>
      have hc : countExited p (Event.start a b t :: tl) = countExited p tl := by
        simp [countExited, List.filter_cons]
      exact ⟨fun hp => by
          rw [hc]; exact IH.1 (step_mono_exitedPids env st _ p hp),
        by rw [hc]; exact IH.2⟩
    | stop u k =>
      have hc : countExited p (Event.stop u k :: tl) = countExited p tl := by
        simp [countExited, List.filter_cons]
      exact ⟨fun hp => by
          rw [hc]; exact IH.1 (step_mono_exitedPids env st _ p hp),
        by rw [hc]; exact IH.2⟩
    | out q text =>
      have hc : countExited p (Event.out q text :: tl) = countExited p tl := by
        simp [countExited, List.filter_cons]
      exact ⟨fun hp => by
          rw [hc]; exact IH.1 (step_mono_exitedPids env st _ p hp),
        by rw [hc]; exact IH.2⟩
    | err q text =>
      have hc : countExited p (Event.err q text :: tl) = countExited p tl := by
        simp [countExited, List.filter_cons]
      exact ⟨fun hp => by
          rw [hc]; exact IH.1 (step_mono_exitedPids env st _ p hp),
        by rw [hc]; exact IH.2⟩
    | exited q c t =>
      by_cases hqp : q = p
      · subst hqp
        simp only [okEvent, Bool.and_eq_true, Bool.not_eq_true,
          decide_eq_false_iff_not] at h1
        obtain ⟨hsome, hnotin0⟩ := h1
        have hnotin : q ∉ st.exitedPids := by simpa using hnotin0
        obtain ⟨a2, ha2⟩ := Option.isSome_iff_exists.mp hsome
        have hmem : q ∈ (step env st (Event.exited q c t)).exitedPids := by
          simp [step, ha2]
        have htl0 : countExited q tl = 0 := IH.1 hmem
        refine ⟨fun hp => absurd hp hnotin, ?_⟩
        rw [countExited_cons_exited, if_pos rfl, htl0]
      · constructor
        · intro hp
          rw [countExited_cons_exited, if_neg hqp, Nat.zero_add]
          exact IH.1 (step_mono_exitedPids env st _ p hp)
        · rw [countExited_cons_exited, if_neg hqp, Nat.zero_add]
          exact IH.2

theorem appendLogFS_dirs (fs : FS) (a s : String) :
    (appendLogFS fs a s).dirs = fs.dirs := by
  rw [appendLogFS]
  split
  · rfl
  · rfl

theorem appendLogFS_lookup_self (fs : FS) (a s : String) (h : a ∈ fs.dirs) :
    (appendLogFS fs a s).logs.lookup a
      = some (((fs.logs.lookup a).getD []) ++ [s]) := by
  rw [appendLogFS, if_pos h]
  exact lookup_setK_self a _ fs.logs

theorem run_outs (env : Env) (pid : Nat) (a : String) :
    ∀ (texts : List String) (st : SState) (ls : List String),
      st.owners.lookup pid = some a → a ∈ st.fs.dirs →
      st.fs.logs.lookup a = some ls →
      (run env st (texts.map (Event.out pid))).fs.logs.lookup a
        = some (ls ++ texts.map trimStr) := by
  intro texts
  induction texts with
  | nil =>
    intro st ls h1 h2 h3
    simpa [run] using h3
  | cons x xs ih =>
    intro st ls h1 h2 h3
    rw [List.map_cons, run]
    have hstep : step env st (Event.out pid x) = onData st a (trimStr x) := by
      simp [step, h1]
    rw [hstep]
    have h1' : (onData st a (trimStr x)).owners.lookup pid = some a := h1
    have h2' : a ∈ (onData st a (trimStr x)).fs.dirs := by
      show a ∈ (appendLogFS st.fs a (trimStr x)).dirs
      rw [appendLogFS_dirs]
      exact h2
    have h3' : (onData st a (trimStr x)).fs.logs.lookup a
        = some (ls ++ [trimStr x]) := by
      show (appendLogFS st.fs a (trimStr x)).logs.lookup a = _
      rw [appendLogFS_lookup_self st.fs a (trimStr x) h2, h3]
      rfl
    rw [ih (onData st a (trimStr x)) (ls ++ [trimStr x]) h1' h2' h3']
    simp [List.append_assoc]

theorem startBot_ok (env : Env) (st : SState) (a : String) (b : Blob)
    (t : String) (v : String) (ha : a ≠ "") (hb : b ≠ Blob.str "")
    (hadm : a ∈ activeUsers st.fs ∨ (activeUsers st.fs).length < MAX_USERS)
    (hd : decodeBlob env b = some v) :
    startBot env st (some a) (some b) t =
      ({ fs := { dirs := (mkdirIf st.fs a).dirs,
                 appstate := setK a v (mkdirIf st.fs a).appstate,
                 adminTxt := setK a a (mkdirIf st.fs a).adminTxt,
                 logs := setK a [logMarker t] (mkdirIf st.fs a).logs },
         processes := setK a st.nextPid st.processes,
         owners := setK st.nextPid a st.owners,
         nextPid := st.nextPid + 1,
         emitted := st.emitted,
         journal := (match st.processes.lookup a with
           | some p => st.journal ++ [Action.killed p]
           | none => st.journal) ++ [Action.forked st.nextPid],
         exitedPids := st.exitedPids }, ⟨200, startedMsg a⟩) := by
  have h1 : ¬ (a = "" ∨ b = Blob.str "") := by
    rintro (h | h)
    · exact ha h
    · exact hb h
  have h2 : ¬ (a ∉ activeUsers st.fs ∧ MAX_USERS ≤ (activeUsers st.fs).length) := by
    rcases hadm with h | h
    · exact fun hc => hc.1 h
    · exact fun hc => absurd hc.2 (Nat.not_le.mpr h)
  simp only [startBot, if_neg h1, if_neg h2, hd]

theorem mem_mkdirIf (fs : FS) (a : String) : a ∈ (mkdirIf fs a).dirs := by
  rw [mkdirIf]
  by_cases h : a ∈ fs.dirs
  · rw [if_pos h]; exact h
  · rw [if_neg h]
    simp

theorem mkdirIf_of_mem (fs : FS) (a : String) (h : a ∈ fs.dirs) :
    mkdirIf fs a = fs := by
  rw [mkdirIf, if_pos h]

/-- C1: a start request for an identifier with no credential blob, arriving
when at least MAX_TENANTS (20) tenants are active, is rejected with the 403
QuotaExceeded response and the whole server state is unchanged: no tenant
directory is created, no credential or owner file is written, no log is
reset, and no worker is forked or registered. -/
theorem c1_quota_reject (env : Env) (st : SState) (a : String) (b : Blob)
    (t : String) (ha : a ≠ "") (hb : b ≠ Blob.str "")
    (hcred : st.fs.appstate.lookup a = none)
    (hfull : MAX_USERS ≤ (activeUsers st.fs).length) :
    startBot env st (some a) (some b) t = (st, ⟨403, quotaMsg⟩) := by
  have h1 : ¬ (a = "" ∨ b = Blob.str "") := by
    rintro (h | h)
    · exact ha h
    · exact hb h
  have hnot : a ∉ activeUsers st.fs := by
    intro hmem
    have hm := (mem_activeUsers st.fs a).mp hmem
    rw [hcred] at hm
    exact absurd hm.2 (by simp)
  simp only [startBot, if_neg h1, if_pos (And.intro hnot hfull)]

/-- Witness for C1: with twenty active users, a start for the fresh
identifier "newuser" is rejected with the quota response and no state
change. -/
theorem c1_quota_reject_witness :
    startBot env0 stC1 (some "newuser") (some (Blob.obj "c")) "T"
      = (stC1, ⟨403, quotaMsg⟩) :=
  c1_quota_reject env0 stC1 "newuser" (Blob.obj "c") "T" (by decide)
    (by decide) (by decide) (by decide)

/-- C2: handling the exit event of a worker whose handler closure captured
tenant a appends exactly one terminal marker line carrying the exit code to
the tenant's durable log, broadcasts that same marker to the tenant's room,
and removes the tenant from the running mapping; and in any trace the Node
runtime can deliver, the exit event of a given worker occurs at most once,
so the terminal line for one exit is never duplicated. -/
theorem c2_exit_reaping (env : Env) :
    (∀ (st : SState) (p : Nat) (a : String) (c : Option Int) (t : String),
      st.owners.lookup p = some a → a ∈ st.fs.dirs →
      getLog (step env st (Event.exited p c t)) a
          = getLog st a ++ [exitMsg c t] ∧
        (step env st (Event.exited p c t)).emitted
          = st.emitted ++ [(a, exitMsg c t)] ∧
        (step env st (Event.exited p c t)).processes.lookup a = none) ∧
    (∀ (es : List Event) (st : SState) (p : Nat),
      validFrom env st es = true → countExited p es ≤ 1) := by
  constructor
  · intro st p a c t h1 h2
    have hstep : step env st (Event.exited p c t)
        = { onExit st a c t with exitedPids := st.exitedPids ++ [p] } := by
      simp [step, h1]
    refine ⟨?_, ?_, ?_⟩
    · rw [hstep]
      show ((appendLogFS st.fs a (exitMsg c t)).logs.lookup a).getD [] = _
      rw [appendLogFS_lookup_self st.fs a (exitMsg c t) h2]
      rfl
    · rw [hstep]
      rfl
    · rw [hstep]
      exact lookup_eraseK_self a st.processes
  · intro es st p hv
    exact (validFrom_atMostOne env p es st hv).2

/-- Witness for C2: reaping worker 0 of tenant 1 in a concrete state appends
the terminal marker, broadcasts it, empties the running entry, and the
one-event trace contains at most one exit for pid 0. -/
theorem c2_exit_reaping_witness :
    (getLog (step env0 stOne (Event.exited 0 (some 1) "T")) "1"
        = getLog stOne "1" ++ [exitMsg (some 1) "T"] ∧
      (step env0 stOne (Event.exited 0 (some 1) "T")).emitted
        = stOne.emitted ++ [("1", exitMsg (some 1) "T")] ∧
      (step env0 stOne (Event.exited 0 (some 1) "T")).processes.lookup "1"
        = none) ∧
    countExited 0 [Event.exited 0 (some 1) "T"] ≤ 1 :=
  ⟨(c2_exit_reaping env0).1 stOne 0 "1" (some 1) "T" (by decide) (by decide),
   (c2_exit_reaping env0).2 [Event.exited 0 (some 1) "T"] stOne 0 (by decide)⟩

/-- C3 counterexample: on a stop request for a registered tenant whose kill
call raises an exception, the caller receives the 500 failure response, not
the Stopped acknowledgment, so a signal failure is surfaced to the caller as
a failure of the stop operation. -/
theorem c3_counterexample :
    (stopBot stOne (some "1") KillOutcome.raised).2 = ⟨500, stopFailMsg⟩ ∧
    (stopBot stOne (some "1") KillOutcome.raised).2 ≠ ⟨200, stoppedMsg "1"⟩ := by
  constructor
  · decide
  · decide

/-- C3 amended: on a stop request for a registered tenant, the caller
observes the Stopped result whenever the kill call returns without raising,
including when the termination signal is not delivered because the process
is already gone; only a kill call that raises an exception is surfaced as a
500 failure. -/
theorem c3_amended_stop_ok (st : SState) (u : String) (p : Nat)
    (k : KillOutcome) (hu : u ≠ "") (h : st.processes.lookup u = some p)
    (hk : k ≠ KillOutcome.raised) :
    (stopBot st (some u) k).2 = ⟨200, stoppedMsg u⟩ ∧
    (stopBot st (some u) k).1.processes.lookup u = none := by
  simp only [stopBot, if_neg hu, h]
  cases k with
  | raised => exact absurd rfl hk
  | delivered => exact ⟨trivial, lookup_eraseK_self u st.processes⟩
  | notDelivered => exact ⟨trivial, lookup_eraseK_self u st.processes⟩

/-- Witness for the amended C3: stopping tenant 1 when the signal is not
delivered (process already gone) still reports Stopped and deregisters the
handle. -/
theorem c3_amended_stop_ok_witness :
    (stopBot stOne (some "1") KillOutcome.notDelivered).2
        = ⟨200, stoppedMsg "1"⟩ ∧
      (stopBot stOne (some "1") KillOutcome.notDelivered).1.processes.lookup "1"
        = none :=
  c3_amended_stop_ok stOne "1" 0 KillOutcome.notDelivered (by decide)
    (by decide) (by decide)

/-- C4: a start request for an identifier that is already active (its
credential blob file exists in its listed directory) is never rejected by
the quota check, whatever the number of active tenants, and the set of
active users after the request equals the set before, so a re-start consumes
no additional quota. -/
theorem c4_active_always_admitted (env : Env) (st : SState) (a : String)
    (b : Blob) (t : String) (ha : a ≠ "") (hb : b ≠ Blob.str "")
    (hcred : (st.fs.appstate.lookup a).isSome = true) (hdir : a ∈ st.fs.dirs) :
    (startBot env st (some a) (some b) t).2.status ≠ 403 ∧
    activeUsers (startBot env st (some a) (some b) t).1.fs
      = activeUsers st.fs := by
  have hmem : a ∈ activeUsers st.fs := (mem_activeUsers st.fs a).mpr ⟨hdir, hcred⟩
  have h1 : ¬ (a = "" ∨ b = Blob.str "") := by
    rintro (h | h)
    · exact ha h
    · exact hb h
  have h2 : ¬ (a ∉ activeUsers st.fs ∧ MAX_USERS ≤ (activeUsers st.fs).length) :=
    fun hc => hc.1 hmem
  have hmk : mkdirIf st.fs a = st.fs := mkdirIf_of_mem st.fs a hdir
  cases hd : decodeBlob env b with
  | none =>
    constructor
    · simp only [startBot, if_neg h1, if_neg h2, hd]
      decide
    · simp only [startBot, if_neg h1, if_neg h2, hd]
      show activeUsers (mkdirIf st.fs a) = activeUsers st.fs
      rw [hmk]
  | some v =>
    rw [startBot_ok env st a b t v ha hb (Or.inl hmem) hd]
    constructor
    · show (200 : Nat) ≠ 403
      decide
    · rw [hmk]
      show st.fs.dirs.filter (fun u => ((setK a v st.fs.appstate).lookup u).isSome)
          = st.fs.dirs.filter (fun u => (st.fs.appstate.lookup u).isSome)
      apply List.filter_congr
      intro u _
      by_cases hua : u = a
      · subst hua
        rw [lookup_setK_self]
        exact hcred.symm
      · rw [lookup_setK_ne a u v st.fs.appstate hua]

/-- Witness for C4: with the quota saturated at twenty active users, a
re-start of the active user 3 is not rejected by the quota and leaves the
active set unchanged. -/
theorem c4_active_always_admitted_witness :
    (startBot env0 stC1 (some "3") (some (Blob.obj "c2")) "T").2.status ≠ 403 ∧
    activeUsers (startBot env0 stC1 (some "3") (some (Blob.obj "c2")) "T").1.fs
      = activeUsers stC1.fs :=
  c4_active_always_admitted env0 stC1 "3" (Blob.obj "c2") "T" (by decide)
    (by decide) (by decide) (by decide)

/-- C5: a start request whose textual credential blob fails to decode is
answered with the 500 InvalidCredential response, and the only state change
is the creation of the tenant directory: no credential, owner or log file is
written, and no worker is forked or registered. -/
theorem c5_invalid_credential (env : Env) (st : SState) (a s t : String)
    (ha : a ≠ "") (hs : s ≠ "")
    (hadm : a ∈ activeUsers st.fs ∨ (activeUsers st.fs).length < MAX_USERS)
    (hbad : env.jsonParse s = none) :
    startBot env st (some a) (some (Blob.str s)) t
      = ({ st with fs := mkdirIf st.fs a }, ⟨500, invalidMsg⟩) := by
  have h1 : ¬ (a = "" ∨ Blob.str s = Blob.str "") := by
    rintro (h | h)
    · exact ha h
    · exact hs (by injection h)
  have h2 : ¬ (a ∉ activeUsers st.fs ∧ MAX_USERS ≤ (activeUsers st.fs).length) := by
    rcases hadm with h | h
    · exact fun hc => hc.1 h
    · exact fun hc => absurd hc.2 (Nat.not_le.mpr h)
  simp only [startBot, if_neg h1, if_neg h2, decodeBlob, hbad]

/-- Witness for C5: starting tenant 7 with the undecodable text "bad" yields
the 500 response and changes nothing but the directory list. -/
theorem c5_invalid_credential_witness :
    startBot env0 init (some "7") (some (Blob.str "bad")) "T"
      = ({ init with fs := mkdirIf init.fs "7" }, ⟨500, invalidMsg⟩) :=
  c5_invalid_credential env0 init "7" "bad" "T" (by decide) (by decide)
    (by decide) (by decide)

/-- C6: a stop request for a tenant with no registered handle returns the
distinct not-running acknowledgment with the non-error status 200, and the
whole server state, in particular the running mapping, is unchanged. -/
theorem c6_stop_not_running (st : SState) (u : String) (k : KillOutcome)
    (hu : u ≠ "") (h : st.processes.lookup u = none) :
    stopBot st (some u) k = (st, ⟨200, notRunningMsg⟩) := by
  simp only [stopBot, if_neg hu, h]

/-- Witness for C6: stopping tenant 7 on a fresh server reports not running
and leaves the state unchanged. -/
theorem c6_stop_not_running_witness :
    stopBot init (some "7") KillOutcome.delivered
      = (init, ⟨200, notRunningMsg⟩) :=
  c6_stop_not_running init "7" KillOutcome.delivered (by decide) (by decide)

/-- C7: fetching the log of a tenant whose log file does not exist returns
the no-logs-yet sentinel; and after a successful start followed by any
sequence of output chunks from the new worker, the tenant's log is exactly
the timestamped session-started marker followed by every appended (trimmed)
chunk in emission order, and fetchLog returns that text, which begins with
the marker line. -/
theorem c7_fetch_log (env : Env) :
    (∀ (st : SState) (u : String), u ≠ "" → st.fs.logs.lookup u = none →
      fetchLog st (some u) = ⟨200, noLogsMsg⟩) ∧
    (∀ (st : SState) (a : String) (b : Blob) (t : String) (v : String)
        (texts : List String), a ≠ "" → b ≠ Blob.str "" →
      (a ∈ activeUsers st.fs ∨ (activeUsers st.fs).length < MAX_USERS) →
      decodeBlob env b = some v →
      getLog (run env (startBot env st (some a) (some b) t).1
          (texts.map (Event.out st.nextPid))) a
        = logMarker t :: texts.map trimStr ∧
      fetchLog (run env (startBot env st (some a) (some b) t).1
          (texts.map (Event.out st.nextPid))) (some a)
        = ⟨200, renderLog (logMarker t :: texts.map trimStr)⟩) := by
  constructor
  · intro st u hu h
    simp only [fetchLog, if_neg hu, h]
  · intro st a b t v texts ha hb hadm hd
    have hr : (run env (startBot env st (some a) (some b) t).1
        (texts.map (Event.out st.nextPid))).fs.logs.lookup a
        = some (logMarker t :: texts.map trimStr) := by
      rw [startBot_ok env st a b t v ha hb hadm hd]
      exact run_outs env st.nextPid a texts _ [logMarker t]
        (lookup_setK_self st.nextPid a st.owners)
        (mem_mkdirIf st.fs a)
        (lookup_setK_self a [logMarker t] (mkdirIf st.fs a).logs)
    constructor
    · simp only [getLog, hr]
      rfl
    · simp only [fetchLog, if_neg ha, hr]

/-- Witness for C7: a fresh server has no log for tenant 9; starting tenant
7 and then receiving two chunks yields the marker followed by the trimmed
chunks, and fetchLog renders exactly that. -/
theorem c7_fetch_log_witness :
    fetchLog init (some "9") = ⟨200, noLogsMsg⟩ ∧
    (getLog (run env0 (startBot env0 init (some "7") (some (Blob.obj "c")) "T").1
        ([" hi ", "x"].map (Event.out init.nextPid))) "7"
      = logMarker "T" :: [" hi ", "x"].map trimStr ∧
    fetchLog (run env0 (startBot env0 init (some "7") (some (Blob.obj "c")) "T").1
        ([" hi ", "x"].map (Event.out init.nextPid))) (some "7")
      = ⟨200, renderLog (logMarker "T" :: [" hi ", "x"].map trimStr)⟩) :=
  ⟨(c7_fetch_log env0).1 init "9" (by decide) (by decide),
   (c7_fetch_log env0).2 init "7" (Blob.obj "c") "T" "c" [" hi ", "x"]
     (by decide) (by decide) (by decide) (by decide)⟩

/-- C8 counterexample: in the valid trace trC8, tenant 7 is started (worker
0 forked), worker 0 emits a chunk, tenant 7 is started again (the journal
shows the kill of worker 0 requested before the fork of worker 1), and then
worker 0 — killed but not yet exited, which Node permits since a kill only
requests termination — emits the chunk old2 after the new worker 1 has
already emitted new1: the resulting durable log holds the replaced
generation's line old2 between the new generation's lines new1 and new2, so
the prior worker is not always terminated before the new worker's first log
line and the log can interleave two generations. -/
theorem c8_counterexample :
    validFrom env0 init trC8 = true ∧
    (run env0 init trC8).journal
      = [Action.forked 0, Action.killed 0, Action.forked 1] ∧
    getLog (run env0 init trC8) "7"
      = [logMarker "T2", "new1", "old2", "new2"] := by
  refine ⟨by decide, by decide, by decide⟩

/-- C8 amended: starting a tenant that has a running worker requests the
kill of the prior handle before forking the new worker (the journal records
the kill immediately before the fork) and reports success; but the
supervisor does not wait for the prior worker to exit, so chunks the prior
worker emits before its exit event may still be appended after the new
worker's lines. -/
theorem c8_amended_kill_before_fork (env : Env) (st : SState) (a : String)
    (b : Blob) (t : String) (v : String) (p : Nat)
    (ha : a ≠ "") (hb : b ≠ Blob.str "")
    (hadm : a ∈ activeUsers st.fs ∨ (activeUsers st.fs).length < MAX_USERS)
    (hd : decodeBlob env b = some v)
    (hp : st.processes.lookup a = some p) :
    (startBot env st (some a) (some b) t).1.journal
      = st.journal ++ [Action.killed p, Action.forked st.nextPid] ∧
    (startBot env st (some a) (some b) t).2 = ⟨200, startedMsg a⟩ := by
  rw [startBot_ok env st a b t v ha hb hadm hd]
  constructor
  · show (match st.processes.lookup a with
      | some p => st.journal ++ [Action.killed p]
      | none => st.journal) ++ [Action.forked st.nextPid] = _
    rw [hp]
    simp [List.append_assoc]
  · rfl

/-- Witness for the amended C8: restarting tenant 7 while worker 1 runs
appends the kill of worker 1 and then the fork of the next worker to the
journal, in that order, and reports success. -/
theorem c8_amended_kill_before_fork_witness :
    (startBot env0 stTwo (some "7") (some (Blob.obj "c")) "T4").1.journal
      = stTwo.journal ++ [Action.killed 1, Action.forked stTwo.nextPid] ∧
    (startBot env0 stTwo (some "7") (some (Blob.obj "c")) "T4").2
      = ⟨200, startedMsg "7"⟩ :=
  c8_amended_kill_before_fork env0 stTwo "7" (Blob.obj "c") "T4" "c" 1
    (by decide) (by decide) (by decide) (by decide) (by decide)

/-- C9: the exit handler deletes the running-mapping entry of its captured
tenant unconditionally: if a stale worker p of tenant a exits while a
different worker q is the registered handle for a, the entry (holding q) is
removed anyway, and a subsequent stop for a reports not running even though
q has not exited. -/
theorem c9_stale_exit_deletes_new (env : Env) (st : SState) (p : Nat)
    (a : String) (q : Nat) (c : Option Int) (t : String) (k : KillOutcome)
    (ha : a ≠ "") (h1 : st.owners.lookup p = some a)
    (h2 : st.processes.lookup a = some q) (h3 : q ≠ p) :
    (step env st (Event.exited p c t)).processes.lookup a = none ∧
    stopBot (step env st (Event.exited p c t)) (some a) k
      = (step env st (Event.exited p c t), ⟨200, notRunningMsg⟩) := by
  have hstep : step env st (Event.exited p c t)
      = { onExit st a c t with exitedPids := st.exitedPids ++ [p] } := by
    simp [step, h1]
  have hnone : (step env st (Event.exited p c t)).processes.lookup a = none := by
    rw [hstep]
    exact lookup_eraseK_self a st.processes
  exact ⟨hnone, by simp only [stopBot, if_neg ha, hnone]⟩

/-- Witness for C9: after tenant 7 was restarted (worker 1 registered,
worker 0 stale), the stale exit of worker 0 empties tenant 7's running
entry and a subsequent stop reports not running. -/
theorem c9_stale_exit_deletes_new_witness :
    (step env0 stTwo (Event.exited 0 (some 0) "T3")).processes.lookup "7"
        = none ∧
      stopBot (step env0 stTwo (Event.exited 0 (some 0) "T3")) (some "7")
          KillOutcome.delivered
        = (step env0 stTwo (Event.exited 0 (some 0) "T3"),
           ⟨200, notRunningMsg⟩) :=
  c9_stale_exit_deletes_new env0 stTwo 0 "7" 1 (some 0) "T3"
    KillOutcome.delivered (by decide) (by decide) (by decide) (by decide)

/-- C10: when the kill call of a stop request on a registered tenant raises
an exception, the caller receives the 500 failure and the running mapping is
unchanged: the delete runs only after a kill that returns. -/
theorem c10_stop_raise_500 (st : SState) (u : String) (p : Nat)
    (hu : u ≠ "") (h : st.processes.lookup u = some p) :
    (stopBot st (some u) KillOutcome.raised).2 = ⟨500, stopFailMsg⟩ ∧
    (stopBot st (some u) KillOutcome.raised).1.processes = st.processes := by
  simp only [stopBot, if_neg hu, h]
  exact ⟨trivial, trivial⟩

/-- Witness for C10: a raising kill during the stop of tenant 1 yields the
500 response and keeps worker 0 registered. -/
theorem c10_stop_raise_500_witness :
    (stopBot stOne (some "1") KillOutcome.raised).2 = ⟨500, stopFailMsg⟩ ∧
    (stopBot stOne (some "1") KillOutcome.raised).1.processes
      = stOne.processes :=
  c10_stop_raise_500 stOne "1" 0 (by decide) (by decide)

end Srv
